import Mathlib

/-!
Shallow embedding of the Optimism L1 data-availability fee core
(crates/optimism/src/l1block.rs): the L1BlockInfo data model, the loader
`try_fetch` over an abstract chain-state store, and the three fee formula
variants dispatched by hardfork.

256-bit machine integers are modelled as Nat with explicit saturation at
2 ^ 256 - 1 where the source uses saturating arithmetic; byte strings are
lists of Nat byte values; fallible storage reads return Except.
-/

namespace Revm

/-- Modelled from the spec: the Hardfork Gate, a totally ordered set of
protocol versions Bedrock < Regolith < Ecotone < Fjord.  The enum itself
(OpSpecId in crates/optimism/src/spec.rs) is not among the provided sources;
it is reconstructed here from the specification text. -/
inductive OpSpec where
  | BEDROCK
  | REGOLITH
  | ECOTONE
  | FJORD
deriving DecidableEq, Repr

/-- Position of a hardfork tag in the total order. -/
def OpSpec.rank : OpSpec → Nat
  | .BEDROCK => 0
  | .REGOLITH => 1
  | .ECOTONE => 2
  | .FJORD => 3

/-- Modelled from the spec: the "active at or after" relation, the only
relational operation the core needs from the Hardfork Gate. -/
def OpSpec.is_enabled_in (s t : OpSpec) : Bool := decide (t.rank ≤ s.rank)

/-- Modelled from the spec: the loader touches the oracle account when the
active hardfork is at or after an earlier upgrade boundary (Cancun on the
base chain).  For the four modelled rollup hardforks that boundary is
crossed exactly from Ecotone onward. -/
def cancun_enabled (s : OpSpec) : Bool := s.is_enabled_in .ECOTONE

def ZERO_BYTE_COST : Nat := 4

def NON_ZERO_BYTE_COST : Nat := 16

/-- Byte offset within the packed storage slot of the 4-byte baseFeeScalar. -/
def BASE_FEE_SCALAR_OFFSET : Nat := 16

/-- Byte offset within the packed storage slot of the 4-byte blobBaseFeeScalar. -/
def BLOB_BASE_FEE_SCALAR_OFFSET : Nat := 20

def L1_BASE_FEE_SLOT : Nat := 1

def L1_OVERHEAD_SLOT : Nat := 5

def L1_SCALAR_SLOT : Nat := 6

def ECOTONE_L1_BLOB_BASE_FEE_SLOT : Nat := 7

def ECOTONE_L1_FEE_SCALARS_SLOT : Nat := 3

/-- The address of the L1Block contract, as a 160-bit number. -/
def L1_BLOCK_CONTRACT : Nat := 0x4200000000000000000000000000000000000015

/-- Largest value representable in an unsigned 256-bit integer. -/
def U256_MAX : Nat := 2 ^ 256 - 1

/-- U256::saturating_mul. -/
def satMul (a b : Nat) : Nat := min (a * b) U256_MAX

/-- U256::saturating_add. -/
def satAdd (a b : Nat) : Nat := min (a + b) U256_MAX

/-- L1 block info: the per-block snapshot of L1 fee market parameters. -/
structure L1BlockInfo where
  l1_base_fee : Nat := 0
  l1_fee_overhead : Option Nat := none
  l1_base_fee_scalar : Nat := 0
  l1_blob_base_fee : Option Nat := none
  l1_blob_base_fee_scalar : Option Nat := none
  empty_scalars : Bool := false
deriving DecidableEq, Repr

/-- Big-endian 32-byte representation of a 256-bit word (U256::to_be_bytes). -/
def toBeBytes32 (n : Nat) : List Nat :=
  (List.range 32).map (fun i => n / 2 ^ (8 * (31 - i)) % 256)

/-- Big-endian decoding of a byte slice (U256::from_be_slice). -/
def from_be_slice (bytes : List Nat) : Nat :=
  bytes.foldl (fun acc b => acc * 256 + b) 0

/-- The loader's decode of a 4-byte big-endian scalar window at a byte
offset of the packed slot value. -/
def decode_scalar (bytes : List Nat) (off : Nat) : Nat :=
  from_be_slice ((bytes.drop off).take 4)

/-- Big-endian 4-byte encoding of a 32-bit value, used to state the packed
slot round-trip. -/
def beBytes4 (n : Nat) : List Nat :=
  [n / 2 ^ 24 % 256, n / 2 ^ 16 % 256, n / 2 ^ 8 % 256, n % 256]

/-- The chain-state store: an account touch (value discarded) and a storage
slot resolver, both fallible with error type ε. -/
structure Db (ε : Type) where
  basic : Nat → Except ε Unit
  storage : Nat → Nat → Except ε Nat

namespace L1BlockInfo

/-- L1BlockInfo::try_fetch: load and decode the oracle parameters from the
chain state, with layout depending on the hardfork.  Each `?` early return
of the source is an explicit match on the read result. -/
def try_fetch {ε : Type} (db : Db ε) (spec : OpSpec) : Except ε L1BlockInfo :=
  match (if cancun_enabled spec then db.basic L1_BLOCK_CONTRACT else .ok ()) with
  | .error e => .error e
  | .ok _ =>
    match db.storage L1_BLOCK_CONTRACT L1_BASE_FEE_SLOT with
    | .error e => .error e
    | .ok l1_base_fee =>
      if spec.is_enabled_in .ECOTONE = false then
        match db.storage L1_BLOCK_CONTRACT L1_OVERHEAD_SLOT with
        | .error e => .error e
        | .ok l1_fee_overhead =>
          match db.storage L1_BLOCK_CONTRACT L1_SCALAR_SLOT with
          | .error e => .error e
          | .ok l1_fee_scalar =>
            .ok { l1_base_fee := l1_base_fee
                  l1_fee_overhead := some l1_fee_overhead
                  l1_base_fee_scalar := l1_fee_scalar }
      else
        match db.storage L1_BLOCK_CONTRACT ECOTONE_L1_BLOB_BASE_FEE_SLOT with
        | .error e => .error e
        | .ok l1_blob_base_fee =>
          match db.storage L1_BLOCK_CONTRACT ECOTONE_L1_FEE_SCALARS_SLOT with
          | .error e => .error e
          | .ok scalars_word =>
            if (l1_blob_base_fee == 0) &&
                (((toBeBytes32 scalars_word).drop BASE_FEE_SCALAR_OFFSET).take 8 ==
                  List.replicate 8 0) then
              match db.storage L1_BLOCK_CONTRACT L1_OVERHEAD_SLOT with
              | .error e => .error e
              | .ok ov =>
                .ok { l1_base_fee := l1_base_fee
                      l1_base_fee_scalar :=
                        decode_scalar (toBeBytes32 scalars_word) BASE_FEE_SCALAR_OFFSET
                      l1_blob_base_fee := some l1_blob_base_fee
                      l1_blob_base_fee_scalar :=
                        decode_scalar (toBeBytes32 scalars_word) BLOB_BASE_FEE_SCALAR_OFFSET
                      empty_scalars := true
                      l1_fee_overhead := some ov }
            else
              .ok { l1_base_fee := l1_base_fee
                    l1_base_fee_scalar :=
                      decode_scalar (toBeBytes32 scalars_word) BASE_FEE_SCALAR_OFFSET
                    l1_blob_base_fee := some l1_blob_base_fee
                    l1_blob_base_fee_scalar :=
                      decode_scalar (toBeBytes32 scalars_word) BLOB_BASE_FEE_SCALAR_OFFSET
                    empty_scalars := false
                    l1_fee_overhead := none }

/-- L1BlockInfo::data_gas.  `est` is the external compressed-size estimator
(estimate_tx_compressed_size), an opaque total function of the payload. -/
def data_gas (info : L1BlockInfo) (est : List Nat → Nat) (input : List Nat)
    (spec : OpSpec) : Nat :=
  if spec.is_enabled_in .FJORD then
    satMul (est input) NON_ZERO_BYTE_COST / 1000000
  else
    let rollup_data_gas_cost := input.foldl
      (fun acc byte => acc + if byte == 0 then ZERO_BYTE_COST else NON_ZERO_BYTE_COST) 0
    if spec.is_enabled_in .REGOLITH = false then
      rollup_data_gas_cost + NON_ZERO_BYTE_COST * 68
    else
      rollup_data_gas_cost

/-- L1BlockInfo::calculate_tx_l1_cost_bedrock. -/
def calculate_tx_l1_cost_bedrock (info : L1BlockInfo) (est : List Nat → Nat)
    (input : List Nat) (spec : OpSpec) : Nat :=
  let rollup_data_gas_cost := info.data_gas est input spec
  satMul (satMul (satAdd rollup_data_gas_cost (info.l1_fee_overhead.getD 0))
      info.l1_base_fee) info.l1_base_fee_scalar / 1000000

/-- L1BlockInfo::calculate_l1_fee_scaled_ecotone. -/
def calculate_l1_fee_scaled_ecotone (info : L1BlockInfo) : Nat :=
  let calldata_cost_per_byte :=
    satMul (satMul info.l1_base_fee NON_ZERO_BYTE_COST) info.l1_base_fee_scalar
  let blob_cost_per_byte :=
    satMul (info.l1_blob_base_fee.getD 0) (info.l1_blob_base_fee_scalar.getD 0)
  satAdd calldata_cost_per_byte blob_cost_per_byte

/-- L1BlockInfo::calculate_tx_l1_cost_ecotone. -/
def calculate_tx_l1_cost_ecotone (info : L1BlockInfo) (est : List Nat → Nat)
    (input : List Nat) (spec : OpSpec) : Nat :=
  if info.empty_scalars then
    info.calculate_tx_l1_cost_bedrock est input spec
  else
    satMul info.calculate_l1_fee_scaled_ecotone (info.data_gas est input spec) /
      (1000000 * NON_ZERO_BYTE_COST)

/-- L1BlockInfo::calculate_tx_l1_cost_fjord. -/
def calculate_tx_l1_cost_fjord (info : L1BlockInfo) (est : List Nat → Nat)
    (input : List Nat) : Nat :=
  satMul (est input) info.calculate_l1_fee_scaled_ecotone / 1000000000000

/-- L1BlockInfo::calculate_tx_l1_cost: top-level dispatch. -/
def calculate_tx_l1_cost (info : L1BlockInfo) (est : List Nat → Nat)
    (input : List Nat) (spec : OpSpec) : Nat :=
  if input.isEmpty || input.head? == some 0x7F then 0
  else if spec.is_enabled_in .FJORD then
    info.calculate_tx_l1_cost_fjord est input
  else if spec.is_enabled_in .ECOTONE then
    info.calculate_tx_l1_cost_ecotone est input spec
  else
    info.calculate_tx_l1_cost_bedrock est input spec

end L1BlockInfo

/-- A trivial estimator used to instantiate hardfork paths that never
consult the estimator. -/
def estZero : List Nat → Nat := fun _ => 0

-- Sanity checks against the source's own unit tests.
example :
    (({ l1_base_fee := 1000000, l1_fee_overhead := some 1000000,
        l1_base_fee_scalar := 1000000 } : L1BlockInfo).data_gas estZero
      [0xFA, 0xCA, 0xDE] .BEDROCK) = 1136 := by decide

example :
    (({ l1_base_fee := 1000000, l1_fee_overhead := some 1000000,
        l1_base_fee_scalar := 1000000 } : L1BlockInfo).data_gas estZero
      [0xFA, 0xCA, 0xDE] .REGOLITH) = 48 := by decide

example :
    (({ l1_base_fee := 1000, l1_fee_overhead := some 1000,
        l1_base_fee_scalar := 1000 } : L1BlockInfo).calculate_tx_l1_cost estZero
      [0xFA, 0xCA, 0xDE] .REGOLITH) = 1048 := by decide

example :
    (({ l1_base_fee := 1000, l1_base_fee_scalar := 1000,
        l1_blob_base_fee := some 1000, l1_blob_base_fee_scalar := some 1000,
        l1_fee_overhead := some 1000 } : L1BlockInfo).calculate_tx_l1_cost estZero
      [0xFA, 0xCA, 0xDE] .ECOTONE) = 51 := by decide

example :
    (({ l1_base_fee := 1000, l1_base_fee_scalar := 1000,
        l1_blob_base_fee := some 1000, l1_blob_base_fee_scalar := some 1000,
        l1_fee_overhead := some 1000, empty_scalars := true } :
      L1BlockInfo).calculate_tx_l1_cost estZero
      [0xFA, 0xCA, 0xDE] .ECOTONE) = 1048 := by decide

/-! ## Helper lemmas -/

/-- Saturating a value before a saturating multiplication does not change the
saturated product. -/
lemma satMul_min_left (s f : Nat) : satMul (min s U256_MAX) f = satMul s f := by
  unfold satMul
  rcases le_total s U256_MAX with h | h
  · rw [min_eq_left h]
  · rw [min_eq_right h]
    rcases Nat.eq_zero_or_pos f with rfl | hf
    · simp
    · have h1 : U256_MAX ≤ U256_MAX * f := Nat.le_mul_of_pos_right _ hf
      have h2 : U256_MAX ≤ s * f := le_trans h1 (Nat.mul_le_mul_right f h)
      rw [min_eq_right h1, min_eq_right h2]

/-- A saturating addition feeding a saturating multiplication behaves like a
plain addition. -/
lemma satMul_satAdd_left (a b f : Nat) : satMul (satAdd a b) f = satMul (a + b) f := by
  unfold satAdd
  exact satMul_min_left _ _

/-- When the cache-warming touch is either skipped or succeeds, the loader's
touch step reduces to a successful unit result. -/
lemma touch_ok {ε : Type} (db : Db ε) (spec : OpSpec)
    (hb : cancun_enabled spec = false ∨ db.basic L1_BLOCK_CONTRACT = Except.ok ()) :
    (if cancun_enabled spec = true then db.basic L1_BLOCK_CONTRACT else Except.ok ()) =
      Except.ok () := by
  rcases hb with hb | hb
  · rw [if_neg (by simp [hb])]
  · split
    · exact hb
    · rfl

/-! ## Claims -/

/-- Claim C1: for every record, every non-empty payload whose first byte is
not the deposit discriminator, and every hardfork before Ecotone,
calculate_tx_l1_cost returns
(data_gas + l1_fee_overhead) * l1_base_fee * l1_base_fee_scalar floor-divided
by 1,000,000, each multiplication saturating at the 256-bit maximum. -/
theorem bedrock_cost_formula (info : L1BlockInfo) (est : List Nat → Nat)
    (input : List Nat) (spec : OpSpec)
    (hne : input ≠ []) (hdep : input.head? ≠ some 0x7F)
    (hspec : spec.is_enabled_in .ECOTONE = false) :
    info.calculate_tx_l1_cost est input spec =
      satMul (satMul (info.data_gas est input spec + info.l1_fee_overhead.getD 0)
        info.l1_base_fee) info.l1_base_fee_scalar / 1000000 := by
  obtain ⟨x, xs, rfl⟩ := List.exists_cons_of_ne_nil hne
  have hx : ((x :: xs).head? == some (0x7F : Nat)) = false := by
    simpa using beq_eq_false_iff_ne.mpr hdep
  cases spec with
  | ECOTONE => simp [OpSpec.is_enabled_in, OpSpec.rank] at hspec
  | FJORD => simp [OpSpec.is_enabled_in, OpSpec.rank] at hspec
  | BEDROCK =>
    simp only [L1BlockInfo.calculate_tx_l1_cost, L1BlockInfo.calculate_tx_l1_cost_bedrock,
      List.isEmpty_cons, Bool.false_or, hx, Bool.false_eq_true, if_false,
      OpSpec.is_enabled_in, OpSpec.rank, satMul_satAdd_left]
    norm_num
  | REGOLITH =>
    simp only [L1BlockInfo.calculate_tx_l1_cost, L1BlockInfo.calculate_tx_l1_cost_bedrock,
      List.isEmpty_cons, Bool.false_or, hx, Bool.false_eq_true, if_false,
      OpSpec.is_enabled_in, OpSpec.rank, satMul_satAdd_left]
    norm_num

/-- Witness for C1 at a concrete record, payload and hardfork. -/
theorem bedrock_cost_formula_witness :
    (({ l1_base_fee := 1000, l1_fee_overhead := some 1000, l1_base_fee_scalar := 1000 } :
        L1BlockInfo).calculate_tx_l1_cost estZero [0xFA, 0xCA, 0xDE] .REGOLITH) =
      satMul (satMul
          (({ l1_base_fee := 1000, l1_fee_overhead := some 1000, l1_base_fee_scalar := 1000 } :
            L1BlockInfo).data_gas estZero [0xFA, 0xCA, 0xDE] .REGOLITH +
            (some 1000 : Option Nat).getD 0) 1000) 1000 / 1000000 :=
  bedrock_cost_formula _ estZero _ .REGOLITH (by decide) (by decide) (by decide)

/-- Claim C2: for every record and every non-empty non-deposit payload, at or
after Ecotone but before Fjord, calculate_tx_l1_cost falls back to the legacy
formula when empty_scalars is set, and otherwise returns
l1_fee_scaled * data_gas floor-divided by 16,000,000, where l1_fee_scaled =
l1_base_fee * 16 * l1_base_fee_scalar + l1_blob_base_fee *
l1_blob_base_fee_scalar with saturating multiplications and addition. -/
theorem ecotone_cost_formula (info : L1BlockInfo) (est : List Nat → Nat)
    (input : List Nat) (spec : OpSpec)
    (hne : input ≠ []) (hdep : input.head? ≠ some 0x7F)
    (hec : spec.is_enabled_in .ECOTONE = true)
    (hfj : spec.is_enabled_in .FJORD = false) :
    info.calculate_tx_l1_cost est input spec =
      if info.empty_scalars then
        info.calculate_tx_l1_cost_bedrock est input spec
      else
        satMul
          (satAdd (satMul (satMul info.l1_base_fee 16) info.l1_base_fee_scalar)
            (satMul (info.l1_blob_base_fee.getD 0) (info.l1_blob_base_fee_scalar.getD 0)))
          (info.data_gas est input spec) / 16000000 := by
  obtain ⟨x, xs, rfl⟩ := List.exists_cons_of_ne_nil hne
  have hx : ((x :: xs).head? == some (0x7F : Nat)) = false := by
    simpa using beq_eq_false_iff_ne.mpr hdep
  cases spec with
  | BEDROCK => simp [OpSpec.is_enabled_in, OpSpec.rank] at hec
  | REGOLITH => simp [OpSpec.is_enabled_in, OpSpec.rank] at hec
  | FJORD => simp [OpSpec.is_enabled_in, OpSpec.rank] at hfj
  | ECOTONE =>
    simp only [L1BlockInfo.calculate_tx_l1_cost, L1BlockInfo.calculate_tx_l1_cost_ecotone,
      L1BlockInfo.calculate_l1_fee_scaled_ecotone, List.isEmpty_cons, Bool.false_or, hx,
      Bool.false_eq_true, if_false, OpSpec.is_enabled_in, OpSpec.rank,
      NON_ZERO_BYTE_COST]
    norm_num

/-- A concrete Ecotone-populated record, used by witnesses. -/
def infoEcotone : L1BlockInfo :=
  { l1_base_fee := 1000, l1_base_fee_scalar := 1000, l1_blob_base_fee := some 1000,
    l1_blob_base_fee_scalar := some 1000 }

/-- Witness for C2 at a concrete Ecotone record and payload. -/
theorem ecotone_cost_formula_witness :
    infoEcotone.calculate_tx_l1_cost estZero [0xFA, 0xCA, 0xDE] .ECOTONE =
      if infoEcotone.empty_scalars then
        infoEcotone.calculate_tx_l1_cost_bedrock estZero [0xFA, 0xCA, 0xDE] .ECOTONE
      else
        satMul
          (satAdd (satMul (satMul infoEcotone.l1_base_fee 16) infoEcotone.l1_base_fee_scalar)
            (satMul (infoEcotone.l1_blob_base_fee.getD 0)
              (infoEcotone.l1_blob_base_fee_scalar.getD 0)))
          (infoEcotone.data_gas estZero [0xFA, 0xCA, 0xDE] .ECOTONE) / 16000000 :=
  ecotone_cost_formula _ estZero _ .ECOTONE (by decide) (by decide) (by decide) (by decide)

/-- Claim C3: at or after Fjord the fee is independent of l1_fee_overhead and
empty_scalars (two records agreeing on the remaining fields yield equal fees),
and every non-exempt payload is priced by the Fjord formula path. -/
theorem fjord_cost_independent (i1 i2 : L1BlockInfo) (est : List Nat → Nat)
    (input : List Nat) (spec : OpSpec)
    (hfj : spec.is_enabled_in .FJORD = true)
    (h1 : i1.l1_base_fee = i2.l1_base_fee)
    (h2 : i1.l1_base_fee_scalar = i2.l1_base_fee_scalar)
    (h3 : i1.l1_blob_base_fee = i2.l1_blob_base_fee)
    (h4 : i1.l1_blob_base_fee_scalar = i2.l1_blob_base_fee_scalar) :
    i1.calculate_tx_l1_cost est input spec = i2.calculate_tx_l1_cost est input spec ∧
    ((input.isEmpty || input.head? == some 0x7F) = false →
      i1.calculate_tx_l1_cost est input spec = i1.calculate_tx_l1_cost_fjord est input) := by
  constructor
  · by_cases hc : (input.isEmpty || input.head? == some 0x7F) = true
    · simp [L1BlockInfo.calculate_tx_l1_cost, hc]
    · simp only [Bool.not_eq_true] at hc
      simp [L1BlockInfo.calculate_tx_l1_cost, hc, hfj, L1BlockInfo.calculate_tx_l1_cost_fjord,
        L1BlockInfo.calculate_l1_fee_scaled_ecotone, h1, h2, h3, h4]
  · intro hc
    simp [L1BlockInfo.calculate_tx_l1_cost, hc, hfj]

/-- A concrete Fjord-era record with overhead and empty_scalars set, used by
the C3 witness. -/
def infoFjordA : L1BlockInfo :=
  { l1_base_fee := 7, l1_base_fee_scalar := 3, l1_blob_base_fee := some 2,
    l1_blob_base_fee_scalar := some 5, l1_fee_overhead := some 99, empty_scalars := true }

/-- The same record as infoFjordA with l1_fee_overhead unset and
empty_scalars cleared, used by the C3 witness. -/
def infoFjordB : L1BlockInfo :=
  { l1_base_fee := 7, l1_base_fee_scalar := 3, l1_blob_base_fee := some 2,
    l1_blob_base_fee_scalar := some 5 }

/-- Witness for C3: two concrete records differing only in l1_fee_overhead
and empty_scalars. -/
theorem fjord_cost_independent_witness :
    (infoFjordA.calculate_tx_l1_cost estZero [1, 2] .FJORD =
      infoFjordB.calculate_tx_l1_cost estZero [1, 2] .FJORD) ∧
    ((([1, 2] : List Nat).isEmpty || ([1, 2] : List Nat).head? == some 0x7F) = false →
      infoFjordA.calculate_tx_l1_cost estZero [1, 2] .FJORD =
      infoFjordA.calculate_tx_l1_cost_fjord estZero [1, 2]) :=
  fjord_cost_independent _ _ estZero _ .FJORD rfl rfl rfl rfl rfl

/-- Claim C4: for every record and every hardfork, the cost is zero whenever
the payload is empty or starts with the deposit discriminator 0x7F. -/
theorem cost_zero_exempt (info : L1BlockInfo) (est : List Nat → Nat)
    (input : List Nat) (spec : OpSpec)
    (h : input = [] ∨ input.head? = some 0x7F) :
    info.calculate_tx_l1_cost est input spec = 0 := by
  unfold L1BlockInfo.calculate_tx_l1_cost
  rcases h with rfl | h
  · rfl
  · have hb : (input.head? == some (0x7F : Nat)) = true := beq_iff_eq.mpr h
    simp [hb]

/-- Witness for C4 at a concrete deposit payload. -/
theorem cost_zero_exempt_witness :
    (({ } : L1BlockInfo).calculate_tx_l1_cost estZero [0x7F, 1, 2] .FJORD) = 0 :=
  cost_zero_exempt _ estZero _ .FJORD (Or.inr rfl)

/-- Claim C9: for every record and non-empty payload, data_gas under Bedrock
equals data_gas under Regolith plus exactly 68 * NON_ZERO_BYTE_COST. -/
theorem data_gas_bedrock_regolith_offset (info : L1BlockInfo) (est : List Nat → Nat)
    (input : List Nat) (hne : input ≠ []) :
    info.data_gas est input .BEDROCK =
      info.data_gas est input .REGOLITH + 68 * NON_ZERO_BYTE_COST := by
  simp only [L1BlockInfo.data_gas, OpSpec.is_enabled_in, OpSpec.rank]
  norm_num
  exact Nat.mul_comm _ _

/-- Witness for C9 at a concrete payload. -/
theorem data_gas_bedrock_regolith_offset_witness :
    (({ } : L1BlockInfo).data_gas estZero [1, 0, 2] .BEDROCK) =
      (({ } : L1BlockInfo).data_gas estZero [1, 0, 2] .REGOLITH) +
        68 * NON_ZERO_BYTE_COST :=
  data_gas_bedrock_regolith_offset _ estZero _ (by decide)

/-- Claim C10: the fee operations are total over arbitrary records: an unset
l1_fee_overhead acts as zero in the legacy formula, and an unset
l1_blob_base_fee or l1_blob_base_fee_scalar acts as zero in the combined
scaled-fee term. -/
theorem fee_ops_default_unset_fields (info : L1BlockInfo) (est : List Nat → Nat)
    (input : List Nat) (spec : OpSpec) :
    L1BlockInfo.calculate_tx_l1_cost_bedrock { info with l1_fee_overhead := none }
        est input spec =
      L1BlockInfo.calculate_tx_l1_cost_bedrock { info with l1_fee_overhead := some 0 }
        est input spec ∧
    L1BlockInfo.calculate_l1_fee_scaled_ecotone { info with l1_blob_base_fee := none } =
      L1BlockInfo.calculate_l1_fee_scaled_ecotone { info with l1_blob_base_fee := some 0 } ∧
    L1BlockInfo.calculate_l1_fee_scaled_ecotone
        { info with l1_blob_base_fee_scalar := none } =
      L1BlockInfo.calculate_l1_fee_scaled_ecotone
        { info with l1_blob_base_fee_scalar := some 0 } :=
  ⟨rfl, rfl, rfl⟩

/-- Claim C8: writing two 4-byte values big-endian at byte offsets 16 and 20
of a 32-byte slot and decoding with the loader's decode recovers both values,
regardless of the remaining bytes of the slot. -/
theorem packed_scalar_roundtrip (b s : Nat) (p t : List Nat)
    (hb : b < 2 ^ 32) (hs : s < 2 ^ 32) (hp : p.length = 16) :
    decode_scalar (p ++ (beBytes4 b ++ (beBytes4 s ++ t))) BASE_FEE_SCALAR_OFFSET = b ∧
    decode_scalar (p ++ (beBytes4 b ++ (beBytes4 s ++ t))) BLOB_BASE_FEE_SCALAR_OFFSET = s := by
  constructor
  · unfold decode_scalar BASE_FEE_SCALAR_OFFSET
    rw [List.drop_left' hp, List.take_left' (by rfl : (beBytes4 b).length = 4)]
    simp only [from_be_slice, beBytes4, List.foldl]
    omega
  · unfold decode_scalar BLOB_BASE_FEE_SCALAR_OFFSET
    have hassoc : p ++ (beBytes4 b ++ (beBytes4 s ++ t)) =
        (p ++ beBytes4 b) ++ (beBytes4 s ++ t) := by
      simp [List.append_assoc]
    have hlen20 : (p ++ beBytes4 b).length = 20 := by
      simp [List.length_append, hp, beBytes4]
    rw [hassoc, List.drop_left' hlen20,
      List.take_left' (by rfl : (beBytes4 s).length = 4)]
    simp only [from_be_slice, beBytes4, List.foldl]
    omega

/-- Witness for C8 at concrete scalar values and slot bytes. -/
theorem packed_scalar_roundtrip_witness :
    decode_scalar (List.replicate 16 7 ++ (beBytes4 305419896 ++ (beBytes4 43981 ++
        List.replicate 8 255))) BASE_FEE_SCALAR_OFFSET = 305419896 ∧
    decode_scalar (List.replicate 16 7 ++ (beBytes4 305419896 ++ (beBytes4 43981 ++
        List.replicate 8 255))) BLOB_BASE_FEE_SCALAR_OFFSET = 43981 :=
  packed_scalar_roundtrip 305419896 43981 _ _ (by decide) (by decide) (by decide)

/-- Claim C7: every successfully fetched record populates its optional fields
as a function of the hardfork and empty_scalars: pre-Ecotone the overhead is
set and the blob fields unset; from Ecotone on the blob fields are set and
the overhead is set exactly when empty_scalars is. -/
theorem try_fetch_optional_field_shape {ε : Type} (db : Db ε) (spec : OpSpec)
    (info : L1BlockInfo) (h : L1BlockInfo.try_fetch db spec = .ok info) :
    (spec.is_enabled_in .ECOTONE = false →
      info.l1_fee_overhead.isSome = true ∧ info.l1_blob_base_fee = none ∧
        info.l1_blob_base_fee_scalar = none) ∧
    (spec.is_enabled_in .ECOTONE = true →
      info.l1_blob_base_fee.isSome = true ∧ info.l1_blob_base_fee_scalar.isSome = true ∧
        (info.l1_fee_overhead.isSome = true ↔ info.empty_scalars = true)) := by
  unfold L1BlockInfo.try_fetch at h
  repeat' split at h
  all_goals first
    | exact Except.noConfusion h
    | (injection h with h2
       subst h2
       constructor <;> intro hg <;> simp_all)

/-- Witness for C7 at a concrete store and hardfork. -/
theorem try_fetch_optional_field_shape_witness :
    (OpSpec.REGOLITH.is_enabled_in .ECOTONE = false →
      (({ l1_base_fee := 11, l1_fee_overhead := some 15, l1_base_fee_scalar := 16 } :
        L1BlockInfo).l1_fee_overhead.isSome = true) ∧
      (({ l1_base_fee := 11, l1_fee_overhead := some 15, l1_base_fee_scalar := 16 } :
        L1BlockInfo).l1_blob_base_fee = none) ∧
      (({ l1_base_fee := 11, l1_fee_overhead := some 15, l1_base_fee_scalar := 16 } :
        L1BlockInfo).l1_blob_base_fee_scalar = none)) ∧
    (OpSpec.REGOLITH.is_enabled_in .ECOTONE = true →
      (({ l1_base_fee := 11, l1_fee_overhead := some 15, l1_base_fee_scalar := 16 } :
        L1BlockInfo).l1_blob_base_fee.isSome = true) ∧
      (({ l1_base_fee := 11, l1_fee_overhead := some 15, l1_base_fee_scalar := 16 } :
        L1BlockInfo).l1_blob_base_fee_scalar.isSome = true) ∧
      ((({ l1_base_fee := 11, l1_fee_overhead := some 15, l1_base_fee_scalar := 16 } :
        L1BlockInfo).l1_fee_overhead.isSome = true) ↔
        (({ l1_base_fee := 11, l1_fee_overhead := some 15, l1_base_fee_scalar := 16 } :
          L1BlockInfo).empty_scalars = true))) :=
  try_fetch_optional_field_shape
    (Db.mk (fun _ => .ok ()) (fun _ slot => .ok (slot + 10)) : Db Nat) .REGOLITH _ rfl

/-- Claim C5: under a hardfork at or after Ecotone, the loader sets
empty_scalars exactly when the blob-base-fee slot reads zero and the 8 bytes
spanning both scalar windows are zero, and it reads the legacy overhead slot
(setting l1_fee_overhead) exactly when empty_scalars holds; otherwise the
overhead is left unset and the overhead slot is not consulted. -/
theorem try_fetch_empty_scalars_rule {ε : Type} (db : Db ε) (spec : OpSpec)
    (base blob scalars : Nat)
    (hec : spec.is_enabled_in .ECOTONE = true)
    (hbasic : db.basic L1_BLOCK_CONTRACT = .ok ())
    (hbase : db.storage L1_BLOCK_CONTRACT L1_BASE_FEE_SLOT = .ok base)
    (hblob : db.storage L1_BLOCK_CONTRACT ECOTONE_L1_BLOB_BASE_FEE_SLOT = .ok blob)
    (hscal : db.storage L1_BLOCK_CONTRACT ECOTONE_L1_FEE_SCALARS_SLOT = .ok scalars) :
    (((blob == 0) && (((toBeBytes32 scalars).drop BASE_FEE_SCALAR_OFFSET).take 8 ==
        List.replicate 8 0)) = true →
      ∀ ov, db.storage L1_BLOCK_CONTRACT L1_OVERHEAD_SLOT = .ok ov →
        L1BlockInfo.try_fetch db spec = .ok
          { l1_base_fee := base
            l1_base_fee_scalar := decode_scalar (toBeBytes32 scalars) BASE_FEE_SCALAR_OFFSET
            l1_blob_base_fee := some blob
            l1_blob_base_fee_scalar :=
              decode_scalar (toBeBytes32 scalars) BLOB_BASE_FEE_SCALAR_OFFSET
            empty_scalars := true
            l1_fee_overhead := some ov }) ∧
    (((blob == 0) && (((toBeBytes32 scalars).drop BASE_FEE_SCALAR_OFFSET).take 8 ==
        List.replicate 8 0)) = false →
      L1BlockInfo.try_fetch db spec = .ok
        { l1_base_fee := base
          l1_base_fee_scalar := decode_scalar (toBeBytes32 scalars) BASE_FEE_SCALAR_OFFSET
          l1_blob_base_fee := some blob
          l1_blob_base_fee_scalar :=
            decode_scalar (toBeBytes32 scalars) BLOB_BASE_FEE_SCALAR_OFFSET
          empty_scalars := false
          l1_fee_overhead := none }) := by
  have hcanc : cancun_enabled spec = true := hec
  constructor
  · intro hcond ov hov
    simp only [L1BlockInfo.try_fetch, hcanc, if_true, hbasic, hbase, hec,
      Bool.true_eq_false, if_false, hblob, hscal, hcond, hov]
  · intro hcond
    simp only [L1BlockInfo.try_fetch, hcanc, if_true, hbasic, hbase, hec,
      Bool.true_eq_false, if_false, hblob, hscal, hcond]
    rw [if_neg (by simp)]

/-- A concrete store whose blob slot is zero and whose packed-scalar slot has
zero scalar windows, used as the C5 witness input. -/
def dbEmptyScalars : Db Nat :=
  Db.mk (fun _ => .ok ()) (fun _ slot => if slot = 7 then .ok 0 else if slot = 3 then .ok 1 else .ok (slot + 100))

/-- Witness for C5 at a concrete store under Ecotone. -/
theorem try_fetch_empty_scalars_rule_witness :
    (((0 == 0) && (((toBeBytes32 1).drop BASE_FEE_SCALAR_OFFSET).take 8 ==
        List.replicate 8 0)) = true →
      ∀ ov, dbEmptyScalars.storage L1_BLOCK_CONTRACT L1_OVERHEAD_SLOT = .ok ov →
        L1BlockInfo.try_fetch dbEmptyScalars .ECOTONE = .ok
          { l1_base_fee := 101
            l1_base_fee_scalar := decode_scalar (toBeBytes32 1) BASE_FEE_SCALAR_OFFSET
            l1_blob_base_fee := some 0
            l1_blob_base_fee_scalar :=
              decode_scalar (toBeBytes32 1) BLOB_BASE_FEE_SCALAR_OFFSET
            empty_scalars := true
            l1_fee_overhead := some ov }) ∧
    (((0 == 0) && (((toBeBytes32 1).drop BASE_FEE_SCALAR_OFFSET).take 8 ==
        List.replicate 8 0)) = false →
      L1BlockInfo.try_fetch dbEmptyScalars .ECOTONE = .ok
        { l1_base_fee := 101
          l1_base_fee_scalar := decode_scalar (toBeBytes32 1) BASE_FEE_SCALAR_OFFSET
          l1_blob_base_fee := some 0
          l1_blob_base_fee_scalar :=
            decode_scalar (toBeBytes32 1) BLOB_BASE_FEE_SCALAR_OFFSET
          empty_scalars := false
          l1_fee_overhead := none }) :=
  try_fetch_empty_scalars_rule dbEmptyScalars .ECOTONE 101 0 1
    (by decide) rfl rfl rfl rfl

/-- Claim C6: every read try_fetch attempts that fails aborts the whole load
with that exact error value (conjuncts one to seven, one per read on each
execution path); conversely an error result is always the error value of one
of the reads, unchanged and carrying no record (conjunct eight); and when the
account touch and every slot read succeed, try_fetch succeeds (conjunct
nine). -/
theorem try_fetch_error_propagation {ε : Type} (db : Db ε) (spec : OpSpec) :
    (∀ e, cancun_enabled spec = true → db.basic L1_BLOCK_CONTRACT = .error e →
      L1BlockInfo.try_fetch db spec = .error e) ∧
    (∀ e, (cancun_enabled spec = false ∨ db.basic L1_BLOCK_CONTRACT = .ok ()) →
      db.storage L1_BLOCK_CONTRACT L1_BASE_FEE_SLOT = .error e →
      L1BlockInfo.try_fetch db spec = .error e) ∧
    (∀ e v1, (cancun_enabled spec = false ∨ db.basic L1_BLOCK_CONTRACT = .ok ()) →
      db.storage L1_BLOCK_CONTRACT L1_BASE_FEE_SLOT = .ok v1 →
      spec.is_enabled_in .ECOTONE = false →
      db.storage L1_BLOCK_CONTRACT L1_OVERHEAD_SLOT = .error e →
      L1BlockInfo.try_fetch db spec = .error e) ∧
    (∀ e v1 v5, (cancun_enabled spec = false ∨ db.basic L1_BLOCK_CONTRACT = .ok ()) →
      db.storage L1_BLOCK_CONTRACT L1_BASE_FEE_SLOT = .ok v1 →
      spec.is_enabled_in .ECOTONE = false →
      db.storage L1_BLOCK_CONTRACT L1_OVERHEAD_SLOT = .ok v5 →
      db.storage L1_BLOCK_CONTRACT L1_SCALAR_SLOT = .error e →
      L1BlockInfo.try_fetch db spec = .error e) ∧
    (∀ e v1, (cancun_enabled spec = false ∨ db.basic L1_BLOCK_CONTRACT = .ok ()) →
      db.storage L1_BLOCK_CONTRACT L1_BASE_FEE_SLOT = .ok v1 →
      spec.is_enabled_in .ECOTONE = true →
      db.storage L1_BLOCK_CONTRACT ECOTONE_L1_BLOB_BASE_FEE_SLOT = .error e →
      L1BlockInfo.try_fetch db spec = .error e) ∧
    (∀ e v1 v7, (cancun_enabled spec = false ∨ db.basic L1_BLOCK_CONTRACT = .ok ()) →
      db.storage L1_BLOCK_CONTRACT L1_BASE_FEE_SLOT = .ok v1 →
      spec.is_enabled_in .ECOTONE = true →
      db.storage L1_BLOCK_CONTRACT ECOTONE_L1_BLOB_BASE_FEE_SLOT = .ok v7 →
      db.storage L1_BLOCK_CONTRACT ECOTONE_L1_FEE_SCALARS_SLOT = .error e →
      L1BlockInfo.try_fetch db spec = .error e) ∧
    (∀ e v1 v7 v3, (cancun_enabled spec = false ∨ db.basic L1_BLOCK_CONTRACT = .ok ()) →
      db.storage L1_BLOCK_CONTRACT L1_BASE_FEE_SLOT = .ok v1 →
      spec.is_enabled_in .ECOTONE = true →
      db.storage L1_BLOCK_CONTRACT ECOTONE_L1_BLOB_BASE_FEE_SLOT = .ok v7 →
      db.storage L1_BLOCK_CONTRACT ECOTONE_L1_FEE_SCALARS_SLOT = .ok v3 →
      ((v7 == 0) && (((toBeBytes32 v3).drop BASE_FEE_SCALAR_OFFSET).take 8 ==
        List.replicate 8 0)) = true →
      db.storage L1_BLOCK_CONTRACT L1_OVERHEAD_SLOT = .error e →
      L1BlockInfo.try_fetch db spec = .error e) ∧
    (∀ e, L1BlockInfo.try_fetch db spec = .error e →
      db.basic L1_BLOCK_CONTRACT = .error e ∨
      db.storage L1_BLOCK_CONTRACT L1_BASE_FEE_SLOT = .error e ∨
      db.storage L1_BLOCK_CONTRACT L1_OVERHEAD_SLOT = .error e ∨
      db.storage L1_BLOCK_CONTRACT L1_SCALAR_SLOT = .error e ∨
      db.storage L1_BLOCK_CONTRACT ECOTONE_L1_BLOB_BASE_FEE_SLOT = .error e ∨
      db.storage L1_BLOCK_CONTRACT ECOTONE_L1_FEE_SCALARS_SLOT = .error e) ∧
    (db.basic L1_BLOCK_CONTRACT = .ok () →
      (∀ slot, ∃ v, db.storage L1_BLOCK_CONTRACT slot = .ok v) →
      ∃ out, L1BlockInfo.try_fetch db spec = .ok out) := by
  refine ⟨?_, ?_, ?_, ?_, ?_, ?_, ?_, ?_, ?_⟩
  · intro e hc hbe
    simp only [L1BlockInfo.try_fetch, hc, if_true, hbe]
  · intro e hb h1
    simp only [L1BlockInfo.try_fetch, touch_ok db spec hb, h1]
  · intro e v1 hb h1 he h5
    simp only [L1BlockInfo.try_fetch, touch_ok db spec hb, h1]
    rw [if_pos he]
    simp only [h5]
  · intro e v1 v5 hb h1 he h5 h6
    simp only [L1BlockInfo.try_fetch, touch_ok db spec hb, h1]
    rw [if_pos he]
    simp only [h5, h6]
  · intro e v1 hb h1 hec h7
    simp only [L1BlockInfo.try_fetch, touch_ok db spec hb, h1]
    rw [if_neg (by simp [hec])]
    simp only [h7]
  · intro e v1 v7 hb h1 hec h7 h3
    simp only [L1BlockInfo.try_fetch, touch_ok db spec hb, h1]
    rw [if_neg (by simp [hec])]
    simp only [h7, h3]
  · intro e v1 v7 v3 hb h1 hec h7 h3 hemp h5
    simp only [L1BlockInfo.try_fetch, touch_ok db spec hb, h1]
    rw [if_neg (by simp [hec])]
    simp only [h7, h3]
    rw [if_pos hemp]
    simp only [h5]
  · intro e h
    unfold L1BlockInfo.try_fetch at h
    by_cases hc : cancun_enabled spec = true
    all_goals
      first
        | rw [if_pos hc] at h
        | rw [if_neg hc] at h
    all_goals repeat' split at h
    all_goals simp_all
  · intro hb hs
    obtain ⟨v1, h1⟩ := hs L1_BASE_FEE_SLOT
    obtain ⟨v5, h5⟩ := hs L1_OVERHEAD_SLOT
    obtain ⟨v6, h6⟩ := hs L1_SCALAR_SLOT
    obtain ⟨v7, h7⟩ := hs ECOTONE_L1_BLOB_BASE_FEE_SLOT
    obtain ⟨v3, h3⟩ := hs ECOTONE_L1_FEE_SCALARS_SLOT
    have h0 : (if cancun_enabled spec = true then db.basic L1_BLOCK_CONTRACT
        else Except.ok ()) = Except.ok () := by
      split
      · exact hb
      · rfl
    by_cases he : spec.is_enabled_in .ECOTONE = false
    · have hok : L1BlockInfo.try_fetch db spec = .ok
          { l1_base_fee := v1, l1_fee_overhead := some v5, l1_base_fee_scalar := v6 } := by
        simp only [L1BlockInfo.try_fetch, h0, h1]
        rw [if_pos he]
        simp only [h5, h6]
      exact ⟨_, hok⟩
    · by_cases hemp : ((v7 == 0) &&
          (((toBeBytes32 v3).drop BASE_FEE_SCALAR_OFFSET).take 8 ==
            List.replicate 8 0)) = true
      · have hok : L1BlockInfo.try_fetch db spec = .ok
            { l1_base_fee := v1, l1_fee_overhead := some v5
              l1_base_fee_scalar := decode_scalar (toBeBytes32 v3) BASE_FEE_SCALAR_OFFSET
              l1_blob_base_fee := some v7
              l1_blob_base_fee_scalar :=
                some (decode_scalar (toBeBytes32 v3) BLOB_BASE_FEE_SCALAR_OFFSET)
              empty_scalars := true } := by
          simp only [L1BlockInfo.try_fetch, h0, h1]
          rw [if_neg he]
          simp only [h7, h3]
          rw [if_pos hemp]
          simp only [h5]
        exact ⟨_, hok⟩
      · have hok : L1BlockInfo.try_fetch db spec = .ok
            { l1_base_fee := v1, l1_fee_overhead := none
              l1_base_fee_scalar := decode_scalar (toBeBytes32 v3) BASE_FEE_SCALAR_OFFSET
              l1_blob_base_fee := some v7
              l1_blob_base_fee_scalar :=
                some (decode_scalar (toBeBytes32 v3) BLOB_BASE_FEE_SCALAR_OFFSET)
              empty_scalars := false } := by
          simp only [L1BlockInfo.try_fetch, h0, h1]
          rw [if_neg he]
          simp only [h7, h3]
          rw [if_neg hemp]
        exact ⟨_, hok⟩

/-- A concrete store whose overhead slot read fails, used as the C6 witness
input. -/
def dbFailing : Db Nat :=
  Db.mk (fun _ => .ok ()) (fun _ slot => if slot = 5 then .error 42 else .ok slot)

/-- Witness for C6: the failing overhead read aborts the concrete loader with
the store's error 42 unchanged, and an all-ok store loads successfully. -/
theorem try_fetch_error_propagation_witness :
    L1BlockInfo.try_fetch dbFailing .BEDROCK = .error 42 ∧
    (∃ out, L1BlockInfo.try_fetch
      (Db.mk (fun _ => .ok ()) (fun _ slot => .ok slot) : Db Nat) .BEDROCK = .ok out) :=
  ⟨(try_fetch_error_propagation dbFailing .BEDROCK).2.2.1 42 1
      (Or.inl rfl) rfl (by decide) rfl,
    (try_fetch_error_propagation _ .BEDROCK).2.2.2.2.2.2.2.2 rfl (fun slot => ⟨slot, rfl⟩)⟩

end Revm
